import Mathlib

/-!
Shallow embedding of the RAG chatbot repository (app/core/config.py,
app/core/loader.py, app/core/chatbot.py, app/api.py) and proofs about the
spec's claims. External services (the Chroma vector database, the HTTP
transport, the embedding model) are modelled as opaque state or as function
parameters, following the call contracts the code relies on. Python
identifiers are kept where possible; `initialize_rag_system` and
`initialize_system` appear here as `init_rag_system` and `init_system`, and
the `initialized` flag as `inited`.
-/

namespace GenAi

/-! ## Configuration (app/core/config.py) -/

def RETRIEVER_K : Nat := 3

def CHUNK_SIZE : Nat := 1000

def CHUNK_OVERLAP : Nat := 200

def GROQ_MODEL : String := "llama-3.3-70b-versatile"

/-! ## Data model

A langchain `Document` carries `page_content` plus metadata; the loader sets
`metadata.source` and `metadata.type` and `PyPDFLoader` sets `metadata.page`.
We call the metadata `type` field `dtype`. -/

structure DocRecord where
  text : String
  source : String
  dtype : String
  page : Option Nat
deriving DecidableEq, Repr

inductive FileKind where
  | pdf
  | txt
  | other
deriving DecidableEq, Repr

/-- A file in the document directory. `contents` models the result of the
per-file loader call (`PyPDFLoader(...).load()` / `TextLoader(...).load()`):
either the list of raw documents it returns (one per PDF page, one per TXT
file), or the exception it raises. -/
structure SrcFile where
  name : String
  kind : FileKind
  contents : Except String (List DocRecord)
deriving Repr

def load_ok (f : SrcFile) : Bool :=
  match f.contents with
  | Except.ok _ => true
  | Except.error _ => false

/-! ## Loader (app/core/loader.py, load_documents, lines 19-76) -/

/-- One iteration of the per-file loop in `load_documents`: a `try` block that
loads the file and stamps `metadata.source = file.name` and
`metadata.type = t`, and an `except` that logs and skips the file. -/
def load_file (t : String) (f : SrcFile) : List DocRecord :=
  match f.contents with
  | Except.error _ => []
  | Except.ok docs => docs.map (fun d => { d with source := f.name, dtype := t })

/-- `load_documents(doc_directory)`: `none` models a missing directory (the
code creates it and returns `[]`); otherwise PDFs are globbed and loaded
first, then TXTs, each with per-file failure tolerance. -/
def load_documents (dir : Option (List SrcFile)) : List DocRecord :=
  match dir with
  | none => []
  | some files =>
    let pdf_files := files.filter (fun f => f.kind = FileKind.pdf)
    let txt_files := files.filter (fun f => f.kind = FileKind.txt)
    pdf_files.flatMap (load_file "pdf") ++ txt_files.flatMap (load_file "txt")

/-! ## Vector store (app/core/loader.py, create_vector_store, lines 101-149)

The Chroma store is external; the spec treats it as an opaque persistent
service. We model the persisted state at `persist_directory` as
`Option (List DocRecord)` (`none` = the directory does not exist, `some d` =
a persisted index whose entries are `d`), loading as returning exactly the
persisted entries, and `Chroma.from_documents` as building a store whose
entries are the given chunks and persisting them. -/

structure VectorStore where
  entries : List DocRecord
deriving DecidableEq, Repr

/-- `create_vector_store(chunks, persist_directory, force_recreate)`.
Returns the store (or `None`) and the persisted state after the call.
Mirrors the control flow: load when the directory exists and
`force_recreate` is false; otherwise `shutil.rmtree` when `force_recreate`
and the directory exists, return `None` when `chunks` is empty and the
directory does not exist, else `Chroma.from_documents`. -/
def create_vector_store (chunks : List DocRecord) (persisted : Option (List DocRecord))
    (force_recreate : Bool) : Option VectorStore × Option (List DocRecord) :=
  if persisted.isSome ∧ ¬force_recreate then
    (some ⟨persisted.getD []⟩, persisted)
  else
    let persisted1 := if force_recreate ∧ persisted.isSome then none else persisted
    if chunks.isEmpty ∧ persisted1.isNone then
      (none, persisted1)
    else
      (some ⟨chunks⟩, some chunks)

/-- `initialize_rag_system(force_recreate)` (loader.py lines 152-177).
`split` abstracts `split_documents` (the external
`RecursiveCharacterTextSplitter`); `dir` is the document directory and
`persisted` the vector-store directory state. -/
def init_rag_system (split : List DocRecord → List DocRecord)
    (dir : Option (List SrcFile)) (persisted : Option (List DocRecord))
    (force_recreate : Bool) : Option VectorStore × Option (List DocRecord) :=
  let documents := load_documents dir
  if documents.isEmpty ∧ force_recreate then
    (none, persisted)
  else
    let chunks := if documents.isEmpty then [] else split documents
    create_vector_store chunks persisted force_recreate

/-! ## Groq adapter (app/core/chatbot.py, GroqChatModel, lines 17-93) -/

structure FormattedMessage where
  role : String
  content : String
deriving DecidableEq, Repr

/-- The langchain message taxonomy as seen by `GroqChatModel._generate`:
`HumanMessage`, `AIMessage`, `ChatMessage` (which carries an arbitrary role
string), and every other `BaseMessage` subtype. -/
inductive LCMessage where
  | human (content : String)
  | ai (content : String)
  | chatMsg (role : String) (content : String)
  | otherMsg (content : String)
deriving DecidableEq, Repr

/-- The message-conversion loop of `_generate` (chatbot.py lines 51-60). -/
def format_message : LCMessage → FormattedMessage
  | LCMessage.human c => { role := "user", content := c }
  | LCMessage.ai c => { role := "assistant", content := c }
  | LCMessage.chatMsg r c => { role := r, content := c }
  | LCMessage.otherMsg c => { role := "user", content := c }

/-- The HTTP request `_generate` issues via `requests.post`. `temperature`
stands for the float in the payload; `timeout` is in seconds. -/
structure HttpRequest where
  url : String
  bearer : String
  model : String
  messages : List FormattedMessage
  temperature : Rat
  stop : Option (List String)
  timeout : Nat
deriving DecidableEq, Repr

/-- The HTTP response: status code, raw body (`response.text`), and the
`choices[0].message.content` field of the parsed body when present. -/
structure HttpResponse where
  status : Nat
  text : String
  content : String
deriving DecidableEq, Repr

/-- The message of the `ValueError` raised on a non-200 status
(chatbot.py line 85). -/
def mk_groq_error (status : Nat) (body : String) : String :=
  "Groq API error: " ++ toString status ++ " - " ++ body

/-- The single request `_generate` builds (chatbot.py lines 62-82); `stop`
enters the payload only when truthy, i.e. a nonempty list. -/
def groq_request (model_name api_key : String) (temperature : Rat)
    (messages : List LCMessage) (stop : Option (List String)) : HttpRequest :=
  { url := "https://api.groq.com/openai/v1/chat/completions"
    bearer := api_key
    model := model_name
    messages := messages.map format_message
    temperature := temperature
    stop := match stop with
      | some (s :: rest) => some (s :: rest)
      | _ => none
    timeout := 60 }

/-- `GroqChatModel._generate` (chatbot.py lines 42-93). `http` is the
transport; the second component lists the requests issued (the code posts
exactly once, with no retry). A non-200 status raises `ValueError` with the
status and body; a 200 response yields `choices[0].message.content`. -/
def groq_generate (model_name api_key : String) (temperature : Rat)
    (messages : List LCMessage) (stop : Option (List String))
    (http : HttpRequest → HttpResponse) :
    Except String String × List HttpRequest :=
  let req := groq_request model_name api_key temperature messages stop
  let resp := http req
  if resp.status = 200 then
    (Except.ok resp.content, [req])
  else
    (Except.error (mk_groq_error resp.status resp.text), [req])

/-! ## Conversational retrieval engine (app/core/chatbot.py, lines 96-180)

`create_chatbot` wires a retriever with `k = RETRIEVER_K`, the custom prompt
template, a conversation memory and the Groq model into a
`ConversationalRetrievalChain`. -/

structure Turn where
  role : String
  content : String
deriving DecidableEq, Repr

/-- The chain `create_chatbot` returns: the retriever's search capability
(`search q k` = similarity search, external Chroma), the retriever's `k`,
the model configuration, and the memory's chat history. -/
structure Chain where
  search : String → Nat → List DocRecord
  k : Nat
  model_name : String
  api_key : String
  temperature : Rat
  history : List Turn

/-- `create_chatbot(vector_store, model_name)` (chatbot.py lines 96-157):
raises when `GROQ_API_KEY` is unset (modelled as the empty string),
otherwise builds the chain with `search_kwargs = [k: RETRIEVER_K]`,
temperature 0.7 and an empty conversation memory. -/
def create_chatbot (search : String → Nat → List DocRecord)
    (groq_api_key : String) (model_name : String) : Except String Chain :=
  if groq_api_key = "" then
    Except.error "GROQ_API_KEY not found. Please set it in your .env file. Get a free key from https://console.groq.com/"
  else
    Except.ok { search := search, k := RETRIEVER_K, model_name := model_name,
                api_key := groq_api_key, temperature := (7 : Rat) / 10, history := [] }

/-! ## API layer (app/api.py) -/

structure AppState where
  vector_store : Option VectorStore
  has_chain : Bool
  inited : Bool
deriving Repr

def init_state : AppState :=
  { vector_store := none, has_chain := false, inited := false }

/-- The `/initialize` endpoint (api.py lines 104-117). An `Except.error`
value is the `HTTPException` the handler raises, which FastAPI turns into an
HTTP response: the process survives. The handler's `try` covers both the
vector-store construction and the `create_chatbot(vector_store)` call —
whose missing-API-key `ValueError` is therefore also caught and mapped to
a 500 whose detail wraps the exception text; note the code assigns
`app_state["vector_store"]` before building the chain, so on that failure
the store is installed but `initialized` stays untouched. Returns the
response, the app state after the call, and the persisted vector-store
state after the call. -/
def init_system (split : List DocRecord → List DocRecord)
    (search : String → Nat → List DocRecord) (groq_api_key : String)
    (dir : Option (List SrcFile)) (persisted : Option (List DocRecord))
    (force_recreate : Bool) (st : AppState) :
    Except (Nat × String) String × AppState × Option (List DocRecord) :=
  let r := init_rag_system split dir persisted force_recreate
  match r.1 with
  | none =>
    (Except.error (500,
      "Initialization failed: Failed to create vector store. Check if documents exist in 'documents' folder."),
     st, r.2)
  | some vs =>
    match create_chatbot search groq_api_key GROQ_MODEL with
    | Except.error e =>
      (Except.error (500, "Initialization failed: " ++ e),
       { st with vector_store := some vs }, r.2)
    | Except.ok _ =>
      (Except.ok "System initialized successfully",
       { vector_store := some vs, has_chain := true, inited := true }, r.2)

structure SourceDocument where
  source : String
  page_content : String
  page : Option Nat
  dtype : Option String
deriving DecidableEq, Repr

def format_source (d : DocRecord) : SourceDocument :=
  { source := d.source, page_content := d.text, page := d.page, dtype := some d.dtype }

/-- The `/chat` endpoint (api.py lines 119-156). `invoke` abstracts
`app_state["chain"].invoke` — the only operation on this path that reaches
the network. The returned `Bool` records whether `invoke` was called. -/
def chat_endpoint (st : AppState) (question : String)
    (invoke : String → Except String (String × List DocRecord)) :
    Except (Nat × String) (String × List SourceDocument) × Bool :=
  if ¬st.inited ∨ ¬st.has_chain then
    (Except.error (400, "System not initialized. Please call /initialize first."), false)
  else
    match invoke question with
    | Except.error e => (Except.error (500, "Error generating response: " ++ e), true)
    | Except.ok out => (Except.ok (out.1, out.2.map format_source), true)

/-- The `custom_prompt` template of `create_chatbot` (chatbot.py lines
123-138), with the three placeholders substituted. -/
def custom_prompt (context chat_history question : String) : String :=
  "You are a helpful AI assistant that answers questions based on the provided context from PDF documents.\n\nContext from documents:\n"
    ++ context
    ++ "\n\nChat history:\n"
    ++ chat_history
    ++ "\n\nUser question: "
    ++ question
    ++ "\n\nPlease provide a helpful and accurate answer based on the context. If the answer is not in the context, say so politely and use your general knowledge if appropriate. Always cite which document(s) you're referencing when possible.\n\nAnswer:"

/-- Modelled from the spec: the rendering of the chat history into the
prompt is done by langchain's memory buffer, which is not part of this
repository; per spec section 4.5 the prior history is rendered as
alternating turns. -/
def render_history (h : List Turn) : String :=
  String.intercalate "\n" (h.map (fun t => t.role ++ ": " ++ t.content))

/-- The observable outcome of one `answer()` call: the result (answer plus
source documents, or the propagated error), the chat history after the
call, the query string and `k` the retrieval step used, and the HTTP
requests issued. -/
structure AnswerOutcome where
  result : Except String (String × List DocRecord)
  history : List Turn
  retrieval_query : String
  retrieval_k : Nat
  requests : List HttpRequest

/-- Modelled from the spec: `ConversationalRetrievalChain.invoke` is
langchain library code that is not part of this repository. Per spec
section 4.5: retrieve top-k chunks using the raw question as the query,
assemble the custom prompt from retrieved context, rendered history and the
question, make one language-model call, and append the question and answer
to the memory only on success (section 7: history unchanged on failure).
The Groq call itself is the repository's `groq_generate`. -/
def chain_answer (c : Chain) (http : HttpRequest → HttpResponse)
    (question : String) : AnswerOutcome :=
  let docs := c.search question c.k
  let context := String.intercalate "\n\n" (docs.map (fun d => d.text))
  let prompt := custom_prompt context (render_history c.history) question
  let gr := groq_generate c.model_name c.api_key c.temperature
    [LCMessage.human prompt] none http
  { result := gr.1.map (fun a => (a, docs))
    history := match gr.1 with
      | Except.ok a => c.history ++ [⟨"user", question⟩, ⟨"assistant", a⟩]
      | Except.error _ => c.history
    retrieval_query := question
    retrieval_k := c.k
    requests := gr.2 }

/-! ## Concrete inputs used by witnesses -/

def http_fail : HttpRequest → HttpResponse :=
  fun _ => { status := 500, text := "Internal Server Error", content := "" }

def search_none : String → Nat → List DocRecord :=
  fun _ _ => []

def chain_ex : Chain :=
  { search := search_none, k := RETRIEVER_K, model_name := GROQ_MODEL,
    api_key := "key", temperature := (7 : Rat) / 10, history := [] }

def corrupt_pdf : SrcFile :=
  { name := "broken.pdf", kind := FileKind.pdf, contents := Except.error "EOF marker not found" }

def good_txt : SrcFile :=
  { name := "notes.txt", kind := FileKind.txt,
    contents := Except.ok [{ text := "hello", source := "", dtype := "", page := none }] }

def doc_ex : DocRecord :=
  { text := "chunk", source := "old.txt", dtype := "txt", page := none }

/-! ## Helper lemmas -/

theorem groq_generate_fail (mn ak : String) (t : Rat) (ms : List LCMessage)
    (st : Option (List String)) (http : HttpRequest → HttpResponse)
    (h : (http (groq_request mn ak t ms st)).status ≠ 200) :
    groq_generate mn ak t ms st http =
      (Except.error (mk_groq_error (http (groq_request mn ak t ms st)).status
        (http (groq_request mn ak t ms st)).text),
       [groq_request mn ak t ms st]) := by
  simp [groq_generate, h]

theorem filter_comm_aux (p q : SrcFile → Bool) (l : List SrcFile) :
    (l.filter p).filter q = (l.filter q).filter p := by
  induction l with
  | nil => rfl
  | cons f rest ih => cases hp : p f <;> cases hq : q f <;>
      simp [List.filter_cons, hp, hq, ih]

theorem flatMap_filter_load_ok (t : String) (l : List SrcFile) :
    (l.filter load_ok).flatMap (load_file t) = l.flatMap (load_file t) := by
  induction l with
  | nil => rfl
  | cons f rest ih =>
    cases hf : f.contents with
    | ok ds => simp [List.filter_cons, load_ok, hf, load_file, ih]
    | error e => simp [List.filter_cons, load_ok, hf, load_file, ih]

theorem mem_flatMap_load_file (t : String) (l : List SrcFile) (r : DocRecord)
    (hr : r ∈ l.flatMap (load_file t)) : r.dtype = t := by
  rw [List.mem_flatMap] at hr
  obtain ⟨f, _, hrf⟩ := hr
  unfold load_file at hrf
  cases hfc : f.contents with
  | error e => rw [hfc] at hrf; exact absurd hrf (List.not_mem_nil r)
  | ok ds =>
    rw [hfc] at hrf
    obtain ⟨d, _, hd⟩ := List.mem_map.mp hrf
    rw [← hd]

/-! ## Claim theorems -/

/-- Claim C2: `create_vector_store(chunks, persist_directory, force_recreate)`
deletes an existing persisted index first when `force_recreate` is true and
then builds only from `chunks`; when `force_recreate` is false and a
persisted index exists it loads exactly the persisted entries, ignoring
`chunks` entirely (no merge); otherwise it builds fresh from `chunks`,
returning `None` when `chunks` is empty (per the spec's empty-sentinel
clause, which the claim's sources include). -/
theorem c2_create_vector_store_lifecycle :
    ∀ (chunks : List DocRecord) (persisted : Option (List DocRecord)) (force : Bool),
    create_vector_store chunks persisted force =
      match persisted, force with
      | some d, false => (some ⟨d⟩, some d)
      | _, _ =>
        if chunks.isEmpty then (none, none) else (some ⟨chunks⟩, some chunks) := by
  intro chunks persisted force
  cases persisted <;> cases force <;> simp [create_vector_store]

/-- Claim C9: with an existing persisted index and `force_recreate = false`,
two successive `create_vector_store` calls both return a store whose entries
are exactly the persisted entries, whatever chunks are supplied: equivalent
retrieval behavior both times, and no entries are added or duplicated. -/
theorem c9_open_idempotent :
    ∀ (d chunks1 chunks2 : List DocRecord),
    (create_vector_store chunks1 (some d) false).1 = some ⟨d⟩ ∧
    (create_vector_store chunks2 (create_vector_store chunks1 (some d) false).2 false).1
      = some ⟨d⟩ ∧
    (create_vector_store chunks2 (create_vector_store chunks1 (some d) false).2 false).2
      = some d := by
  intro d chunks1 chunks2
  simp [create_vector_store]

/-- Claim C5: when the document directory yields no loadable documents,
`/initialize` with `force_recreate = true` answers with an HTTP 500 error
telling the operator to check the documents folder, leaving the app state
and the persisted index untouched (the handler raises `HTTPException`, so
the process survives — whatever the API key); with `force_recreate = false`,
a persisted index present and the API key set (so that the handler's
`create_chatbot` call succeeds), it succeeds and installs the old index. -/
theorem c5_init_empty_docs :
    ∀ (split : List DocRecord → List DocRecord) (search : String → Nat → List DocRecord)
      (key : String) (dir : Option (List SrcFile))
      (persisted : Option (List DocRecord)) (st : AppState) (d : List DocRecord),
    load_documents dir = [] →
    key ≠ "" →
    init_system split search key dir persisted true st =
      (Except.error (500,
        "Initialization failed: Failed to create vector store. Check if documents exist in 'documents' folder."),
       st, persisted) ∧
    (init_system split search key dir (some d) false st).1
      = Except.ok "System initialized successfully" ∧
    ((init_system split search key dir (some d) false st).2.1).inited = true ∧
    ((init_system split search key dir (some d) false st).2.1).vector_store = some ⟨d⟩ ∧
    (init_system split search key dir (some d) false st).2.2 = some d := by
  intro split search key dir persisted st d h hkey
  refine ⟨?_, ?_⟩
  · simp [init_system, init_rag_system, h]
  · simp [init_system, init_rag_system, h, create_vector_store, create_chatbot, hkey]

/-- Witness for C5 at a concrete directory holding one corrupt PDF (no
loadable documents) and a set API key. -/
theorem c5_init_empty_docs_witness :
    init_system id search_none "key" (some [corrupt_pdf]) none true init_state =
      (Except.error (500,
        "Initialization failed: Failed to create vector store. Check if documents exist in 'documents' folder."),
       init_state, none) ∧
    (init_system id search_none "key" (some [corrupt_pdf]) (some [doc_ex]) false init_state).1
      = Except.ok "System initialized successfully" ∧
    ((init_system id search_none "key" (some [corrupt_pdf]) (some [doc_ex]) false init_state).2.1).inited
      = true := by
  have h := c5_init_empty_docs id search_none "key" (some [corrupt_pdf]) none init_state
    [doc_ex] (by rfl) (by decide)
  exact ⟨h.1, h.2.1, h.2.2.1⟩

/-- Claim C8: a `/chat` request before successful initialization answers
with the distinct 400 client error and the chain is never invoked, hence no
network call to the language model is made. -/
theorem c8_chat_before_init :
    ∀ (st : AppState) (q : String)
      (invoke : String → Except String (String × List DocRecord)),
    st.inited = false →
    chat_endpoint st q invoke =
      (Except.error (400, "System not initialized. Please call /initialize first."), false) := by
  intro st q invoke h
  simp [chat_endpoint, h]

/-- Witness for C8 on the initial app state. -/
theorem c8_chat_before_init_witness :
    chat_endpoint init_state "What is X?" (fun q => Except.ok (q, [])) =
      (Except.error (400, "System not initialized. Please call /initialize first."), false) :=
  c8_chat_before_init init_state "What is X?" (fun q => Except.ok (q, [])) rfl

/-- Claim C4 counterexample: a `ChatMessage` whose role is "system" — a role
that is neither "user" nor "assistant" — is sent to the provider with role
"system", not coerced to "user" (chatbot.py lines 57-58 pass
`ChatMessage.role` through verbatim). -/
theorem c4_counterexample :
    (format_message (LCMessage.chatMsg "system" "x")).role = "system" ∧
    (format_message (LCMessage.chatMsg "system" "x")).role ≠ "user" ∧
    "system" ≠ "user" ∧ "system" ≠ "assistant" := by
  refine ⟨rfl, ?_, ?_, ?_⟩ <;> decide

/-- Claim C4 as amended: role conversion is total (never raises); a
message of unrecognized type is sent with role "user", while a
`ChatMessage` is sent with its own role string verbatim — for every role
string, recognized or not. -/
theorem c4_role_coercion :
    ∀ (r c : String),
    format_message (LCMessage.chatMsg r c) = { role := r, content := c } ∧
    format_message (LCMessage.otherMsg c) = { role := "user", content := c } ∧
    format_message (LCMessage.human c) = { role := "user", content := c } ∧
    format_message (LCMessage.ai c) = { role := "assistant", content := c } := by
  intro r c
  exact ⟨rfl, rfl, rfl, rfl⟩

/-- Claim C1: every `answer()` call retrieves with exactly the raw question
as the query and with the chain's `k`, whatever the chat history is; the
chain `create_chatbot` builds carries `k = RETRIEVER_K = 3` and an empty
initial history. -/
theorem c1_retrieval_uses_raw_question :
    ∀ (c : Chain) (http : HttpRequest → HttpResponse) (q : String)
      (search : String → Nat → List DocRecord) (key name : String),
    (chain_answer c http q).retrieval_query = q ∧
    (chain_answer c http q).retrieval_k = c.k ∧
    (key ≠ "" →
      ∃ ch, create_chatbot search key name = Except.ok ch ∧ ch.k = 3 ∧ ch.history = []) ∧
    RETRIEVER_K = 3 := by
  intro c http q search key name
  refine ⟨rfl, rfl, ?_, rfl⟩
  intro hkey
  refine ⟨{ search := search, k := RETRIEVER_K, model_name := name, api_key := key,
            temperature := (7 : Rat) / 10, history := [] }, ?_, rfl, rfl⟩
  simp [create_chatbot, hkey]

/-- Witness for C1 at a concrete chain, transport, question and API key. -/
theorem c1_retrieval_uses_raw_question_witness :
    (chain_answer chain_ex http_fail "What is X?").retrieval_query = "What is X?" ∧
    (chain_answer chain_ex http_fail "What is X?").retrieval_k = chain_ex.k ∧
    (∃ ch, create_chatbot search_none "key" GROQ_MODEL = Except.ok ch ∧
      ch.k = 3 ∧ ch.history = []) ∧
    RETRIEVER_K = 3 := by
  have h := c1_retrieval_uses_raw_question chain_ex http_fail "What is X?"
    search_none "key" GROQ_MODEL
  exact ⟨h.1, h.2.1, h.2.2.1 (by decide), h.2.2.2⟩

/-- Claim C3: `_generate` issues exactly one HTTP request (no retry), that
request carries a 60-second timeout, and a non-success status makes the
call fail with the `ValueError` message embedding the status code and the
response body verbatim — the failure is the result, not swallowed. -/
theorem c3_non_success_surfaces_verbatim :
    ∀ (mn ak : String) (t : Rat) (ms : List LCMessage) (st : Option (List String))
      (http : HttpRequest → HttpResponse),
    (groq_generate mn ak t ms st http).2 = [groq_request mn ak t ms st] ∧
    (groq_request mn ak t ms st).timeout = 60 ∧
    ((http (groq_request mn ak t ms st)).status ≠ 200 →
      (groq_generate mn ak t ms st http).1 =
        Except.error (mk_groq_error (http (groq_request mn ak t ms st)).status
          (http (groq_request mn ak t ms st)).text)) := by
  intro mn ak t ms st http
  refine ⟨?_, rfl, ?_⟩
  · by_cases h : (http (groq_request mn ak t ms st)).status = 200 <;>
      simp [groq_generate, h]
  · intro h
    rw [groq_generate_fail mn ak t ms st http h]

/-- Witness for C3 at a transport that always answers HTTP 500. -/
theorem c3_non_success_surfaces_verbatim_witness :
    (groq_generate "m" "k" 1 [LCMessage.human "hi"] none http_fail).2 =
      [groq_request "m" "k" 1 [LCMessage.human "hi"] none] ∧
    (groq_request "m" "k" 1 [LCMessage.human "hi"] none).timeout = 60 ∧
    (groq_generate "m" "k" 1 [LCMessage.human "hi"] none http_fail).1 =
      Except.error (mk_groq_error 500 "Internal Server Error") := by
  have h := c3_non_success_surfaces_verbatim "m" "k" 1 [LCMessage.human "hi"] none http_fail
  exact ⟨h.1, h.2.1, h.2.2 (by decide)⟩

/-- Claim C6: when the language-model HTTP call fails (non-success status),
`answer()` propagates the error and the chat history after the call is
exactly the history before it — the question is never appended without its
answer. -/
theorem c6_history_unchanged_on_failure :
    ∀ (c : Chain) (http : HttpRequest → HttpResponse) (q : String),
    (∀ r, (http r).status ≠ 200) →
    (chain_answer c http q).history = c.history ∧
    ∃ e, (chain_answer c http q).result = Except.error e := by
  intro c http q h
  constructor
  · simp [chain_answer, groq_generate, h]
  · simp [chain_answer, groq_generate, h, Except.map]

/-- Witness for C6: a concrete chain and a transport answering HTTP 500;
the history survives unchanged (any appended question would be visible). -/
theorem c6_history_unchanged_on_failure_witness :
    (chain_answer chain_ex http_fail "What is X?").history = chain_ex.history ∧
    ∃ e, (chain_answer chain_ex http_fail "What is X?").result = Except.error e := by
  exact c6_history_unchanged_on_failure chain_ex http_fail "What is X?"
    (fun r => by simp [http_fail])

/-- Claim C7: per-file extraction failures are contained: removing the
failing files from the directory does not change the result of
`load_documents`, i.e. a corrupt file contributes nothing and every other
file's records are all kept (the per-file `try` means no exception escapes;
the model is total). At the concrete scenario of one corrupt PDF plus one
valid TXT, the output holds exactly the TXT file's record. -/
theorem c7_per_file_failures_skipped :
    (∀ (files : List SrcFile),
      load_documents (some (files.filter load_ok)) = load_documents (some files)) ∧
    load_documents (some [corrupt_pdf, good_txt]) =
      [{ text := "hello", source := "notes.txt", dtype := "txt", page := none }] := by
  constructor
  · intro files
    simp only [load_documents]
    rw [filter_comm_aux load_ok (fun f => f.kind = FileKind.pdf),
      flatMap_filter_load_ok,
      filter_comm_aux load_ok (fun f => f.kind = FileKind.txt),
      flatMap_filter_load_ok]
  · rfl

/-- Claim C10: whatever the directory order and file names, every record
`load_documents` returns from a PDF file precedes every record returned
from a TXT file: the output decomposes as a `pdf`-typed block followed by a
`txt`-typed block. -/
theorem c10_pdf_records_precede_txt :
    ∀ (files : List SrcFile), ∃ a b : List DocRecord,
    load_documents (some files) = a ++ b ∧
    (∀ r ∈ a, r.dtype = "pdf") ∧
    (∀ r ∈ b, r.dtype = "txt") := by
  intro files
  exact ⟨(files.filter (fun (f : SrcFile) => f.kind = FileKind.pdf)).flatMap (load_file "pdf"),
         (files.filter (fun (f : SrcFile) => f.kind = FileKind.txt)).flatMap (load_file "txt"),
         rfl,
         fun r hr => mem_flatMap_load_file "pdf" _ r hr,
         fun r hr => mem_flatMap_load_file "txt" _ r hr⟩

end GenAi
